import Mathlib

/-!
Shallow embedding of the batch-operation and resource-handle-cache code of
the `ls-arch-artifacts` example apps, together with proofs of the spec
claims about them.

Conventions of the embedding:
* Python dictionaries with string keys and string values become association
  lists (`PyDict`); subscripting a missing key becomes `PyErr.keyError`.
* A Python function that may raise returns `Except PyErr _`.
* Caller-supplied callbacks (SDK calls, per-item operations) are modelled as
  explicit state-passing functions `σ → input → σ × Except PyErr output`, so
  that "the callback was invoked exactly once / never" is expressible by
  instantiating `σ` with a call counter or a call log.
-/

set_option autoImplicit false

/-- Python exception values, as far as the embedded code distinguishes them. -/
inductive PyErr where
  /-- `KeyError` raised by subscripting a dict with a missing key. -/
  | keyError (key : String)
  /-- Any other exception, carrying its message. -/
  | exc (msg : String)
deriving DecidableEq, Repr

/-- `str(e)` on a modelled exception. -/
def strOfErr : PyErr → String
  | .keyError k => "KeyError: " ++ k
  | .exc m => m

/-- A Python dict with string keys and values, as an association list. -/
abbrev PyDict := List (String × String)

/-- `d.get(k)` / `k in d`: first binding of `k`, if any. -/
def dictGet? (d : PyDict) (k : String) : Option String :=
  (d.find? (fun p => p.1 == k)).map (fun p => p.2)

/-- `d.get(k, dflt)`. -/
def dictGetD (d : PyDict) (k : String) (dflt : String) : String :=
  (dictGet? d k).getD dflt

/-- `d[k] = v`: replace the binding of `k` if present, else append it. -/
def dictSet : PyDict → String → String → PyDict
  | [], k, v => [(k, v)]
  | (k', v') :: rest, k, v =>
    if k' == k then (k, v) :: rest else (k', v') :: dictSet rest k v

/-- `if k not in d: d[k] = v`. -/
def setDefault (d : PyDict) (k v : String) : PyDict :=
  if (dictGet? d k).isSome then d else dictSet d k v

/-- `pat` starts the character list. -/
def listStarts : List Char → List Char → Bool
  | [], _ => true
  | _ :: _, [] => false
  | p :: ps, c :: cs => p == c && listStarts ps cs

/-- Python `s.endswith(suffix)`. -/
def strEndsWith (s suffix : String) : Bool :=
  listStarts suffix.toList.reverse s.toList.reverse

/-- `pat` occurs somewhere in the character list. -/
def listHas (pat : List Char) : List Char → Bool
  | [] => listStarts pat []
  | c :: cs => listStarts pat (c :: cs) || listHas pat cs

/-- Python `pat in s` on strings: substring containment. -/
def containsSub (s pat : String) : Bool :=
  listHas pat.toList s.toList

/-! ### App `12a2e723c7476f59`: queue-URL / topic-ARN cache and payment rule -/

/-- `OrderProcessingClient.get_queue_url`: consult the memo table
`self._queue_urls`; on a miss call the SDK (`resolver`, modelled with its own
state `σ`), store the returned URL and return it; on SDK failure store nothing
and re-raise. Returns (resolver state, updated memo table, result). -/
def get_queue_url {σ : Type} (resolver : σ → String → σ × Except PyErr String)
    (s : σ) (cache : PyDict) (queue_name : String) :
    σ × PyDict × Except PyErr String :=
  match dictGet? cache queue_name with
  | some url => (s, cache, .ok url)
  | none =>
    match resolver s queue_name with
    | (s', .ok url) => (s', dictSet cache queue_name url, .ok url)
    | (s', .error e) => (s', cache, .error e)

/-- `OrderProcessingClient.get_topic_arn`: consult `self._topic_arns`; on a
miss list all topics (`list_topics`), scan for the first ARN ending in
`":topic_name"`, store and return it; raise `Topic ... not found` when no ARN
matches; on SDK failure re-raise. Nothing is stored on any failure path. -/
def get_topic_arn {σ : Type} (list_topics : σ → σ × Except PyErr (List String))
    (s : σ) (cache : PyDict) (topic_name : String) :
    σ × PyDict × Except PyErr String :=
  match dictGet? cache topic_name with
  | some arn => (s, cache, .ok arn)
  | none =>
    match list_topics s with
    | (s', .error e) => (s', cache, .error e)
    | (s', .ok topics) =>
      match topics.find? (fun arn => strEndsWith arn (":" ++ topic_name)) with
      | some arn => (s', dictSet cache topic_name arn, .ok arn)
      | none => (s', cache, .error (.exc ("Topic " ++ topic_name ++ " not found")))

/-- Driver expressing "call `get_queue_url` `n` times with the same name",
threading the resolver state and the memo table and collecting each call's
result. -/
def resolveCalls {σ : Type} (resolver : σ → String → σ × Except PyErr String) :
    Nat → σ → PyDict → String → σ × PyDict × List (Except PyErr String)
  | 0, s, cache, _ => (s, cache, [])
  | n + 1, s, cache, name =>
    match get_queue_url resolver s cache name with
    | (s', cache', r) =>
      match resolveCalls resolver n s' cache' name with
      | (s'', cache'', rs) => (s'', cache'', r :: rs)

/-- Result dict of `OrderProcessingClient._process_payment`. -/
structure PaymentResult where
  success : Bool
  error : Option String
  payment_id : Option String
deriving DecidableEq, Repr

/-- `OrderProcessingClient._process_payment`: declines iff the order total is
strictly greater than 500; otherwise succeeds with a `PAY-<time>` id. The
`int(time.time())` read is the `now` parameter. -/
def process_payment (total : ℚ) (now : Nat) : PaymentResult :=
  if total > 500 then
    { success := false, error := some "Credit card declined", payment_id := none }
  else
    { success := true, error := none, payment_id := some ("PAY-" ++ toString now) }

/-! ### App `331b83bdbfe63d75`: `bulk_register_users` -/

/-- The result dict of `bulk_register_users`. `successful` holds
`{email, registration_id}` entries, `failed` holds `{email, error}` entries. -/
structure BulkRegisterReport where
  successful : List (String × Option String)
  failed : List (String × String)
  total_processed : Nat
  success_rate : ℚ
deriving DecidableEq, Repr

/-- The per-item loop of `bulk_register_users`. For each user dict the
operation (`register_user`, modelled as the stateful callback `op` returning
the response dict) is invoked first; then `user_data` is subscripted with
`"email"` — on the success path while building the `successful` entry, on the
failure path inside the `except` handler — so a missing `"email"` key raises
`KeyError` out of the loop in either case and later users are not attempted. -/
def registerLoop {σ : Type} (op : σ → PyDict → σ × Except PyErr PyDict) :
    σ → List PyDict →
    σ × Except PyErr (List (String × Option String) × List (String × String))
  | s, [] => (s, .ok ([], []))
  | s, u :: rest =>
    match op s u with
    | (s', r) =>
      match dictGet? u "email" with
      | none => (s', .error (.keyError "email"))
      | some em =>
        match registerLoop op s' rest with
        | (s'', .error e) => (s'', .error e)
        | (s'', .ok (ss, fs)) =>
          match r with
          | .ok resp => (s'', .ok ((em, dictGet? resp "registration_id") :: ss, fs))
          | .error e => (s'', .ok (ss, (em, strOfErr e) :: fs))

/-- `UserRegistrationApp.bulk_register_users`: run the per-item loop and attach
`total_processed = len(users)` and
`success_rate = len(successful)/len(users) if users else 0`. -/
def bulk_register_users {σ : Type} (op : σ → PyDict → σ × Except PyErr PyDict)
    (s : σ) (users : List PyDict) : σ × Except PyErr BulkRegisterReport :=
  match registerLoop op s users with
  | (s', .error e) => (s', .error e)
  | (s', .ok (ss, fs)) =>
    (s', .ok { successful := ss, failed := fs, total_processed := users.length,
               success_rate :=
                 if users.isEmpty then 0
                 else (ss.length : ℚ) / (users.length : ℚ) })

/-! ### App `ad03f95fc72b1791`: `discover_api_endpoint`, `bulk_import_movies` -/

/-- `s.rstrip("/")`. -/
def rstripSlash (s : String) : String :=
  String.mk ((s.toList.reverse.dropWhile (fun c => c == '/')).reverse)

/-- `MovieCatalogApp.discover_api_endpoint`: list the API Gateway APIs (each
modelled as a `(Name, ApiId)` pair), take the first whose name contains
`"apigw-http-lambda"`, build and store the endpoint URL; raise
`API Gateway not found` when none matches; re-raise SDK failures. The stored
`self.api_endpoint` attribute is threaded as `api_endpoint` and is unchanged on
every failure path. -/
def discover_api_endpoint {σ : Type}
    (get_apis : σ → σ × Except PyErr (List (String × String)))
    (endpoint_url : String) (api_endpoint : Option String) (s : σ) :
    σ × Option String × Except PyErr String :=
  match get_apis s with
  | (s', .error e) => (s', api_endpoint, .error e)
  | (s', .ok apis) =>
    match apis.find? (fun api => containsSub api.1 "apigw-http-lambda") with
    | some api =>
      (s', some (rstripSlash endpoint_url ++ "/" ++ api.2 ++ "/movies"),
       .ok (rstripSlash endpoint_url ++ "/" ++ api.2 ++ "/movies"))
    | none => (s', api_endpoint, .error (.exc "API Gateway not found"))

/-- The result dict of `bulk_import_movies`. -/
structure BulkImportReport where
  success : Nat
  failed : Nat
  errors : List String
deriving DecidableEq, Repr

/-- The per-item loop of `bulk_import_movies`. The operation
(`add_movie_via_api`) is invoked first; then `movie["title"]` and
`movie["year"]` are subscripted — in the success branch while formatting the
log line, in the failure branch while formatting the error message — so a
missing key raises `KeyError` out of the loop and later movies are not
attempted. Returns (success count, failed count, error messages). -/
def importLoop {σ : Type} (op : σ → PyDict → σ × Except PyErr PyDict) :
    σ → List PyDict → σ × Except PyErr (Nat × Nat × List String)
  | s, [] => (s, .ok (0, 0, []))
  | s, m :: rest =>
    match op s m with
    | (s', r) =>
      match dictGet? m "title" with
      | none => (s', .error (.keyError "title"))
      | some t =>
        match dictGet? m "year" with
        | none => (s', .error (.keyError "year"))
        | some y =>
          match importLoop op s' rest with
          | (s'', .error e) => (s'', .error e)
          | (s'', .ok (sc, fc, errs)) =>
            match r with
            | .ok _ => (s'', .ok (sc + 1, fc, errs))
            | .error e =>
              (s'', .ok (sc, fc + 1,
                ("Failed to import " ++ t ++ " (" ++ y ++ "): " ++ strOfErr e)
                  :: errs))

/-- `MovieCatalogApp.bulk_import_movies`: run the per-item loop and package the
counts and error messages. -/
def bulk_import_movies {σ : Type} (op : σ → PyDict → σ × Except PyErr PyDict)
    (s : σ) (movies : List PyDict) : σ × Except PyErr BulkImportReport :=
  match importLoop op s movies with
  | (s', .error e) => (s', .error e)
  | (s', .ok (sc, fc, errs)) =>
    (s', .ok { success := sc, failed := fc, errors := errs })

/-! ### App `62707d3237ff9c70`: `batch_create_users` -/

/-- The result dict of `batch_create_users` on its normal path. -/
structure BatchCreateReport where
  success : Bool
  successful : List String
  failed : List (String × String)
  message : String
deriving DecidableEq, Repr

/-- The per-item loop of `batch_create_users`. Each user dict gets default
`createdAt` (the `now` parameter) and `status` values, then `batch.put_item`
(the stateful callback `put`) is invoked; on its success `user_data["UserId"]`
is appended to the successful ids (`KeyError` when absent is caught by the
per-item handler), and every per-item failure is recorded with
`user_data.get("UserId", "unknown")` — `.get` never raises, so this loop never
raises. Returns (state, successful ids, failed entries). -/
def createLoop {σ : Type} (put : σ → PyDict → σ × Except PyErr Unit)
    (now : String) : σ → List PyDict → σ × List String × List (String × String)
  | s, [] => (s, [], [])
  | s, u :: rest =>
    let u' := setDefault (setDefault u "createdAt" now) "status" "active"
    match put s u' with
    | (s', r) =>
      let outcome : Except PyErr String :=
        match r with
        | .ok _ =>
          match dictGet? u' "UserId" with
          | some uid => .ok uid
          | none => .error (.keyError "UserId")
        | .error e => .error e
      match createLoop put now s' rest with
      | (s'', ss, fs) =>
        match outcome with
        | .ok uid => (s'', uid :: ss, fs)
        | .error e => (s'', ss, (dictGetD u' "UserId" "unknown", strOfErr e) :: fs)

/-- `UserManagementSystem.batch_create_users`: run the per-item loop under the
batch writer and package the ids, failures and summary message. The outer
`except` never fires in this model because the per-item loop catches every
per-item exception. -/
def batch_create_users {σ : Type} (put : σ → PyDict → σ × Except PyErr Unit)
    (now : String) (s : σ) (users : List PyDict) : σ × BatchCreateReport :=
  match createLoop put now s users with
  | (s', ss, fs) =>
    (s', { success := true, successful := ss, failed := fs,
           message := "Successfully created " ++ toString ss.length ++ " users" })

/-! ### App `d02637494b9688ec`: `batch_publish_transactions` -/

/-- An EventBridge entry built for one transaction; `detail` stands for the
`json.dumps(transaction)` payload and `time` for `datetime.utcnow()`. -/
structure EventEntry (Txn : Type) where
  source : String
  detail_type : String
  detail : Txn
  time : Nat
deriving DecidableEq, Repr

/-- The entry built for one transaction inside the chunk loop. -/
def mkEntry {Txn : Type} (now : Nat) (t : Txn) : EventEntry Txn :=
  { source := "custom.myApp", detail_type := "transaction", detail := t, time := now }

/-- Python `range(start, stop, step)` for a positive step. -/
def pyRange3 (start stop step : Nat) : List Nat :=
  (List.range ((stop - start + step - 1) / step)).map (fun k => start + k * step)

/-- The chunks `transactions[i:i+10]` taken by `batch_publish_transactions`,
one per loop iteration of `range(0, len(transactions), 10)`. -/
def pyChunks {Txn : Type} (ts : List Txn) : List (List Txn) :=
  (pyRange3 0 ts.length 10).map (fun i => (ts.drop i).take 10)

/-- The chunk loop of `batch_publish_transactions`: for each start index build
the entries of the chunk, call `put_events` (the stateful callback `put`), and
on failure re-raise immediately — later chunks are not attempted. -/
def publishGo {Txn Resp σ : Type}
    (put : σ → List (EventEntry Txn) → σ × Except PyErr Resp) (now : Nat)
    (ts : List Txn) : List Nat → σ → σ × Except PyErr (List Resp)
  | [], s => (s, .ok [])
  | i :: is, s =>
    match put s (((ts.drop i).take 10).map (mkEntry now)) with
    | (s', .error e) => (s', .error e)
    | (s', .ok r) =>
      match publishGo put now ts is s' with
      | (s'', .error e) => (s'', .error e)
      | (s'', .ok rs) => (s'', .ok (r :: rs))

/-- `TransactionProcessor.batch_publish_transactions`: iterate over
`range(0, len(transactions), 10)` publishing each chunk of at most 10
transactions with one `put_events` call, collecting the responses; any failed
call raises out of the whole function. -/
def batch_publish_transactions {Txn Resp σ : Type}
    (put : σ → List (EventEntry Txn) → σ × Except PyErr Resp) (now : Nat)
    (s : σ) (transactions : List Txn) : σ × Except PyErr (List Resp) :=
  publishGo put now transactions (pyRange3 0 transactions.length 10) s

/-! ### App `d35dcd19a22c571c`: `analyze_threat_patterns` -/

/-- One parsed WAF log record, with the fields the analysis reads
(`entry.get("httpRequest", {}).get(...)` and `entry.get("action", "")`). -/
structure LogEntry where
  clientIp : String
  action : String
  uri : String
  args : String
  country : String
deriving DecidableEq, Repr

/-- The aggregate dict built by `analyze_threat_patterns` (the
`analysis_timestamp` field is external time and is not modelled). -/
structure ThreatAnalysis where
  total_requests : Nat
  blocked_requests : Nat
  suspicious_ips : List (String × Nat)
  sql_injection : Nat
  xss_attempts : Nat
  brute_force : Nat
  scanning : Nat
  top_blocked_countries : List (String × Nat)
deriving DecidableEq, Repr

/-- `if k not in m: m[k] = 0` followed by `m[k] += 1` on a counter dict. -/
def bumpCount : List (String × Nat) → String → List (String × Nat)
  | [], k => [(k, 1)]
  | (k', v) :: rest, k =>
    if k' == k then (k', v + 1) :: rest else (k', v) :: bumpCount rest k

/-- Sum of the counters of a counter dict. -/
def sumCounts (m : List (String × Nat)) : Nat :=
  (m.map (fun p => p.2)).sum

/-- The pattern `"; drop` of the SQL-injection check (its first character is an
ASCII single quote, written via `Char.ofNat 39`). -/
def sqlDropPat : String :=
  String.mk [Char.ofNat 39, ';', ' ', 'd', 'r', 'o', 'p']

/-- First half of one iteration of the analysis loop of
`analyze_threat_patterns`: count a `BLOCK` action into `blocked_requests`,
`suspicious_ips` and `top_blocked_countries`. -/
def blockCount (ta : ThreatAnalysis) (e : LogEntry) : ThreatAnalysis :=
  if e.action == "BLOCK" then
    { ta with blocked_requests := ta.blocked_requests + 1,
              suspicious_ips := bumpCount ta.suspicious_ips e.clientIp,
              top_blocked_countries := bumpCount ta.top_blocked_countries e.country }
  else ta

/-- Second half of one iteration of the analysis loop: classify
`uri + " " + args` (lower-cased) into at most one attack-pattern bucket. -/
def attackClassify (ta1 : ThreatAnalysis) (e : LogEntry) : ThreatAnalysis :=
  let combined := (e.uri ++ " " ++ e.args).toLower
  if containsSub combined "union select" || containsSub combined "or 1=1"
      || containsSub combined sqlDropPat then
    { ta1 with sql_injection := ta1.sql_injection + 1 }
  else if containsSub combined "<script>" || containsSub combined "javascript:"
      || containsSub combined "onerror=" then
    { ta1 with xss_attempts := ta1.xss_attempts + 1 }
  else if (e.uri == "/login" || e.uri == "/admin" || e.uri == "/wp-admin")
      && e.args != "" then
    { ta1 with brute_force := ta1.brute_force + 1 }
  else if strEndsWith e.uri ".php" || containsSub e.uri ".." then
    { ta1 with scanning := ta1.scanning + 1 }
  else ta1

/-- One iteration of the analysis loop of `analyze_threat_patterns`: the
blocked-request counting followed by the attack-pattern classification. -/
def analyzeEntry (ta : ThreatAnalysis) (e : LogEntry) : ThreatAnalysis :=
  attackClassify (blockCount ta e) e

/-- `WAFSecurityAutomation.analyze_threat_patterns`, from the parsed log
entries on: initialise the aggregates with `total_requests = len(log_entries)`
and run the counting loop (fetching and gunzipping the log file is external
I/O and is outside this embedding). -/
def analyze_threat_patterns (log_entries : List LogEntry) : ThreatAnalysis :=
  log_entries.foldl analyzeEntry
    { total_requests := log_entries.length, blocked_requests := 0,
      suspicious_ips := [], sql_injection := 0, xss_attempts := 0,
      brute_force := 0, scanning := 0, top_blocked_countries := [] }

/-! ### Dictionary lemmas -/

theorem dictGet?_nil (k : String) : dictGet? [] k = none := rfl

theorem dictGet?_cons (k' v' : String) (rest : PyDict) (k : String) :
    dictGet? ((k', v') :: rest) k = if k' == k then some v' else dictGet? rest k := by
  unfold dictGet?
  cases h : (k' == k) <;> simp [List.find?, h]

theorem dictGet?_dictSet_self (cache : PyDict) (k v : String) :
    dictGet? (dictSet cache k v) k = some v := by
  induction cache with
  | nil => simp [dictSet, dictGet?_cons]
  | cons p rest ih =>
    obtain ⟨k', v'⟩ := p
    unfold dictSet
    by_cases h : (k' == k) <;> simp [h, dictGet?_cons, ih]

/-! ### Cache lemmas -/

theorem get_queue_url_hit {σ : Type} (resolver : σ → String → σ × Except PyErr String)
    (s : σ) (cache : PyDict) (name url : String) (h : dictGet? cache name = some url) :
    get_queue_url resolver s cache name = (s, cache, .ok url) := by
  unfold get_queue_url
  rw [h]

theorem resolveCalls_hit {σ : Type} (resolver : σ → String → σ × Except PyErr String)
    (n : Nat) (s : σ) (cache : PyDict) (name url : String)
    (h : dictGet? cache name = some url) :
    resolveCalls resolver n s cache name = (s, cache, List.replicate n (.ok url)) := by
  induction n with
  | zero => simp [resolveCalls]
  | succ m ih =>
    simp [resolveCalls, get_queue_url_hit resolver s cache name url h, ih,
      List.replicate_succ]

/-- C3: the name-to-handle cache memoizes successful resolutions: a name
already present in the memo table is returned without invoking the resolver
(the resolver state is untouched and the answer does not depend on the
resolver); on a miss the resolver runs once, its result is stored under the
name and returned; and across `N ≥ 1` calls with the same name against a
call-counting resolver whose resolution succeeds, the counter ends at exactly
1 and every call returns the identical handle. -/
theorem cache_memoizes_success :
    ∀ (σ : Type) (resolver : σ → String → σ × Except PyErr String) (s : σ)
      (cache : PyDict) (name url : String),
      (dictGet? cache name = some url →
        get_queue_url resolver s cache name = (s, cache, .ok url))
      ∧ (∀ s', dictGet? cache name = none → resolver s name = (s', .ok url) →
          get_queue_url resolver s cache name = (s', dictSet cache name url, .ok url)
          ∧ dictGet? (dictSet cache name url) name = some url)
      ∧ (∀ (f : String → Except PyErr String) (nm u : String),
          f nm = .ok u → ∀ N, 1 ≤ N →
          resolveCalls (fun (k : Nat) n => (k + 1, f n)) N 0 [] nm
            = (1, [(nm, u)], List.replicate N (.ok u))) := by
  intro σ resolver s cache name url
  refine ⟨fun h => get_queue_url_hit resolver s cache name url h, ?_, ?_⟩
  · intro s' hmiss hres
    constructor
    · unfold get_queue_url
      rw [hmiss, hres]
    · exact dictGet?_dictSet_self cache name url
  · intro f nm u hf N hN
    obtain ⟨M, rfl⟩ : ∃ M, N = M + 1 := ⟨N - 1, by omega⟩
    have h1 : get_queue_url (fun (k : Nat) n => (k + 1, f n)) 0 [] nm
        = (1, [(nm, u)], .ok u) := by
      unfold get_queue_url
      simp [dictGet?_nil, hf, dictSet]
    have h2 : dictGet? [(nm, u)] nm = some u := by simp [dictGet?_cons]
    simp [resolveCalls, h1, resolveCalls_hit _ M _ _ _ _ h2, List.replicate_succ]

/-- Closed instance of `cache_memoizes_success`: a concrete hit returns the
stored handle untouched, and three calls against a counting resolver leave the
counter at 1 with all three calls returning the resolved URL. -/
theorem cache_memoizes_success_witness :
    (get_queue_url (fun (k : Nat) n => (k + 1, .ok ("https://queue/" ++ n))) 5
        [("orders-queue", "https://queue/orders-queue")] "orders-queue"
      = (5, [("orders-queue", "https://queue/orders-queue")],
          .ok "https://queue/orders-queue"))
    ∧ resolveCalls (fun (k : Nat) n => (k + 1, .ok ("https://queue/" ++ n)))
        3 0 [] "orders-queue"
      = (1, [("orders-queue", "https://queue/orders-queue")],
          List.replicate 3 (.ok "https://queue/orders-queue")) := by
  have h := cache_memoizes_success Nat
    (fun (k : Nat) n => (k + 1, .ok ("https://queue/" ++ n))) 5
    [("orders-queue", "https://queue/orders-queue")] "orders-queue"
    "https://queue/orders-queue"
  exact ⟨h.1 rfl, h.2.2 (fun n => .ok ("https://queue/" ++ n)) "orders-queue"
    "https://queue/orders-queue" rfl 3 (by norm_num)⟩

/-- C4: failed resolutions are not cached and the failure is raised to the
caller: on a miss, a failing topic listing leaves the memo table unchanged and
re-raises, an empty scan raises `Topic ... not found` with the table unchanged,
the failing `discover_api_endpoint` leaves its stored endpoint unchanged, and a
listing that fails on its first call and succeeds on its second yields a raised
error from the first `get_topic_arn` call and the resolved ARN (now cached)
from the second, the listing having been re-invoked. -/
theorem cache_failure_not_memoized :
    ∀ (σ : Type) (lt : σ → σ × Except PyErr (List String)) (s s' : σ)
      (cache : PyDict) (name : String),
      dictGet? cache name = none →
      (∀ e, lt s = (s', .error e) →
        get_topic_arn lt s cache name = (s', cache, .error e))
      ∧ (∀ topics, lt s = (s', .ok topics) →
          topics.find? (fun arn => strEndsWith arn (":" ++ name)) = none →
          get_topic_arn lt s cache name
            = (s', cache, .error (.exc ("Topic " ++ name ++ " not found"))))
      ∧ (∀ (ga : σ → σ × Except PyErr (List (String × String)))
            (epu : String) (ep : Option String) (e : PyErr),
          ga s = (s', .error e) →
          discover_api_endpoint ga epu ep s = (s', ep, .error e))
      ∧ (∀ (arns : List String) (nm arn : String) (e : PyErr),
          arns.find? (fun a => strEndsWith a (":" ++ nm)) = some arn →
          get_topic_arn
              (fun (k : Nat) => (k + 1, if k == 0 then .error e else .ok arns))
              0 [] nm
            = (1, [], .error e)
          ∧ get_topic_arn
              (fun (k : Nat) => (k + 1, if k == 0 then .error e else .ok arns))
              1 [] nm
            = (2, [(nm, arn)], .ok arn)) := by
  intro σ lt s s' cache name hmiss
  refine ⟨?_, ?_, ?_, ?_⟩
  · intro e hlt
    unfold get_topic_arn
    rw [hmiss, hlt]
  · intro topics hlt hfind
    unfold get_topic_arn
    rw [hmiss, hlt]
    simp [hfind]
  · intro ga epu ep e hga
    unfold discover_api_endpoint
    rw [hga]
  · intro arns nm arn e hfind
    constructor
    · unfold get_topic_arn
      simp [dictGet?_nil]
    · unfold get_topic_arn
      simp [dictGet?_nil, hfind, dictSet]

/-- Closed instance of `cache_failure_not_memoized`: with a topic listing that
is down on its first call and finds `orders` on its second, the first
`get_topic_arn` call raises and caches nothing, the second re-invokes the
listing and returns the ARN. -/
theorem cache_failure_not_memoized_witness :
    (get_topic_arn
        (fun (k : Nat) =>
          (k + 1, if k == 0 then .error (.exc "sns down")
                  else .ok ["arn:aws:sns:us-east-1:000000000000:orders"]))
        0 [] "orders"
      = (1, [], .error (.exc "sns down")))
    ∧ get_topic_arn
        (fun (k : Nat) =>
          (k + 1, if k == 0 then .error (.exc "sns down")
                  else .ok ["arn:aws:sns:us-east-1:000000000000:orders"]))
        1 [] "orders"
      = (2, [("orders", "arn:aws:sns:us-east-1:000000000000:orders")],
          .ok "arn:aws:sns:us-east-1:000000000000:orders") := by
  have h := cache_failure_not_memoized Nat
    (fun (k : Nat) =>
      (k + 1, if k == 0 then .error (.exc "sns down")
              else .ok ["arn:aws:sns:us-east-1:000000000000:orders"]))
    0 1 [] "orders" rfl
  exact h.2.2.2 ["arn:aws:sns:us-east-1:000000000000:orders"] "orders"
    "arn:aws:sns:us-east-1:000000000000:orders" (.exc "sns down") (by decide)

/-- C7: `_process_payment` is a hard-coded threshold comparison: it returns
`success = false` with error `"Credit card declined"` exactly when the order
total is strictly greater than 500, and otherwise returns `success = true`
with a payment id and no error — so a total of exactly 500 passes. -/
theorem payment_threshold_500 :
    ∀ (total : ℚ) (now : Nat),
      (((process_payment total now).success = false
        ∧ (process_payment total now).error = some "Credit card declined")
        ↔ total > 500)
      ∧ (total ≤ 500 →
          (process_payment total now).success = true
          ∧ (process_payment total now).payment_id = some ("PAY-" ++ toString now)
          ∧ (process_payment total now).error = none) := by
  intro total now
  unfold process_payment
  split_ifs with h
  · refine ⟨⟨fun _ => h, fun _ => ⟨rfl, rfl⟩⟩, fun hle => absurd h (not_lt.mpr hle)⟩
  · refine ⟨⟨fun hc => ?_, fun hgt => absurd hgt h⟩, fun _ => ⟨rfl, rfl, rfl⟩⟩
    exact absurd hc.1 (by simp)

/-- Closed instance of `payment_threshold_500`: an order whose total is
exactly 500 passes the payment step with a payment id. -/
theorem payment_threshold_500_witness :
    (500 : ℚ) ≤ 500
    ∧ (process_payment 500 7).success = true
    ∧ (process_payment 500 7).payment_id = some ("PAY-" ++ toString 7)
    ∧ (process_payment 500 7).error = none :=
  ⟨by norm_num, (payment_threshold_500 500 7).2 (by norm_num)⟩

/-- C9: the per-item failure isolation of `bulk_register_users` needs every
user dict to contain `"email"`: on a user without `"email"` whose registration
fails, the error-recording handler raises `KeyError`, the exception escapes the
batch call, and the remaining users are never attempted (the call log shows
only the first user); likewise `bulk_import_movies` raises `KeyError` for a
failing movie without `"title"` and never attempts the rest. -/
theorem missing_key_escapes_batch :
    (bulk_register_users
        (fun (log : List PyDict) u => (log ++ [u], .error (.exc "db down")))
        [] [[("name", "bob")], [("email", "carol@example.com")]]
      = ([[("name", "bob")]], .error (.keyError "email")))
    ∧ bulk_import_movies
        (fun (log : List PyDict) m => (log ++ [m], .error (.exc "api down")))
        [] [[("year", "1999")], [("title", "Heat"), ("year", "1995")]]
      = ([[("year", "1999")]], .error (.keyError "title")) :=
  ⟨rfl, rfl⟩

/-- In-order projection of the items a stateless register operation `f`
succeeds on, as recorded by `bulk_register_users` (email plus the
`registration_id` field of the response dict). Characterization helper used
in theorem statements. -/
def regSucc (f : PyDict → Except PyErr PyDict) (users : List PyDict) :
    List (String × Option String) :=
  users.filterMap (fun u =>
    match dictGet? u "email", f u with
    | some em, .ok resp => some (em, dictGet? resp "registration_id")
    | _, _ => none)

/-- In-order projection of the items a stateless register operation `f` fails
on, as recorded by `bulk_register_users` (email plus error message).
Characterization helper used in theorem statements. -/
def regFail (f : PyDict → Except PyErr PyDict) (users : List PyDict) :
    List (String × String) :=
  users.filterMap (fun u =>
    match dictGet? u "email", f u with
    | some em, .error e => some (em, strOfErr e)
    | _, _ => none)

/-- Characterization of the register loop for a stateless per-item operation
`f` when every user dict carries `"email"`: no exception escapes and the two
result lists are the in-order projections of the succeeding and failing
items. -/
theorem registerLoop_pure {σ : Type} (f : PyDict → Except PyErr PyDict) (s : σ) :
    ∀ (users : List PyDict), (∀ u ∈ users, (dictGet? u "email").isSome) →
      registerLoop (fun t u => (t, f u)) s users
        = (s, .ok (regSucc f users, regFail f users)) := by
  intro users
  induction users with
  | nil => intro _; simp [registerLoop, regSucc, regFail]
  | cons u rest ih =>
    intro h
    obtain ⟨em, hem⟩ := Option.isSome_iff_exists.mp (h u (by simp))
    have hrest := ih (fun v hv => h v (by simp [hv]))
    cases hf : f u with
    | ok resp =>
      simp [registerLoop, regSucc, regFail, hem, hrest, hf, List.filterMap_cons]
    | error e =>
      simp [registerLoop, regSucc, regFail, hem, hrest, hf, List.filterMap_cons]

/-- C1 (amended: the isolation holds provided every input dict contains the
`"email"` key, which both the success and the error-recording branch
subscript): under that precondition, for every stateless per-item operation
the batch call returns a report — no exception propagates — whose `failed`
entries are exactly the failing items in input order with their email and
error message and whose `successful` entries are exactly the succeeding items;
and in the `[A, B, C]` scenario where only `B` fails, the report records 2
successes and 1 failure and the call log shows `C` was still attempted. -/
theorem bulk_register_isolates_failures_given_email :
    (∀ (σ : Type) (f : PyDict → Except PyErr PyDict) (s : σ)
        (users : List PyDict),
      (∀ u ∈ users, (dictGet? u "email").isSome) →
      bulk_register_users (fun t u => (t, f u)) s users
        = (s, .ok { successful := regSucc f users,
                    failed := regFail f users,
                    total_processed := users.length,
                    success_rate := if users.isEmpty then 0
                      else ((regSucc f users).length : ℚ) / (users.length : ℚ) }))
    ∧ (∀ (f : PyDict → Except PyErr PyDict) (A B C : PyDict) (ea eb ec : String)
        (ra rc : PyDict) (eB : PyErr),
        dictGet? A "email" = some ea → dictGet? B "email" = some eb →
        dictGet? C "email" = some ec →
        f A = .ok ra → f B = .error eB → f C = .ok rc →
        bulk_register_users (fun (log : List PyDict) u => (log ++ [u], f u))
            [] [A, B, C]
          = ([A, B, C],
             .ok { successful := [(ea, dictGet? ra "registration_id"),
                                  (ec, dictGet? rc "registration_id")],
                   failed := [(eb, strOfErr eB)],
                   total_processed := 3,
                   success_rate := 2 / 3 })) := by
  constructor
  · intro σ f s users h
    unfold bulk_register_users
    rw [registerLoop_pure f s users h]
  · intro f A B C ea eb ec ra rc eB hA hB hC hfA hfB hfC
    unfold bulk_register_users
    simp only [registerLoop, hA, hB, hC, hfA, hfB, hfC, List.nil_append,
      List.cons_append, List.append_nil]
    norm_num

/-- C1 counterexample for the claim as stated (quantified over every input
list): with a first user lacking `"email"` whose operation fails, the failure
is not recorded as data — the handler's `KeyError` escapes `bulk_register_users`
and the second user is never attempted (the call log holds only the first). -/
theorem bulk_register_missing_email_escapes :
    bulk_register_users
        (fun (log : List PyDict) u => (log ++ [u], .error (.exc "smtp unreachable")))
        [] [[("name", "alice")], [("email", "dave@example.com")]]
      = ([[("name", "alice")]], .error (.keyError "email")) := rfl

/-- Closed instance of `bulk_register_isolates_failures_given_email`: three
users with emails where only the second fails give a report with 2 successes,
1 failure, all three attempted. -/
theorem bulk_register_isolates_failures_witness :
    bulk_register_users
        (fun (log : List PyDict) u => (log ++ [u],
          if dictGet? u "email" == some "b@x" then .error (.exc "dup")
          else .ok [("registration_id", "r1")]))
        [] [[("email", "a@x")], [("email", "b@x")], [("email", "c@x")]]
      = ([[("email", "a@x")], [("email", "b@x")], [("email", "c@x")]],
         .ok { successful := [("a@x", some "r1"), ("c@x", some "r1")],
               failed := [("b@x", "dup")],
               total_processed := 3,
               success_rate := 2 / 3 }) :=
  bulk_register_isolates_failures_given_email.2
    (fun u => if dictGet? u "email" == some "b@x" then .error (.exc "dup")
              else .ok [("registration_id", "r1")])
    [("email", "a@x")] [("email", "b@x")] [("email", "c@x")]
    "a@x" "b@x" "c@x" [("registration_id", "r1")] [("registration_id", "r1")]
    (.exc "dup") rfl rfl rfl rfl rfl rfl

/-- When the register loop returns a report, its two lists account for every
input item exactly once and each keeps the input order of emails. -/
theorem registerLoop_counts {σ : Type} (op : σ → PyDict → σ × Except PyErr PyDict) :
    ∀ (users : List PyDict) (s s' : σ) (ss : List (String × Option String))
      (fs : List (String × String)),
      registerLoop op s users = (s', .ok (ss, fs)) →
      ss.length + fs.length = users.length
      ∧ List.Sublist (ss.map Prod.fst) (users.map (fun u => dictGetD u "email" ""))
      ∧ List.Sublist (fs.map Prod.fst) (users.map (fun u => dictGetD u "email" "")) := by
  intro users
  induction users with
  | nil =>
    intro s s' ss fs h
    simp [registerLoop] at h
    simp [h.2.1, h.2.2]
  | cons u rest ih =>
    intro s s' ss fs h
    rcases h1 : op s u with ⟨s1, r⟩
    rw [registerLoop, h1] at h
    cases hem : dictGet? u "email" with
    | none => rw [hem] at h; simp at h
    | some em =>
      rw [hem] at h
      dsimp only at h
      have hemD : dictGetD u "email" "" = em := by simp [dictGetD, hem]
      rcases h2 : registerLoop op s1 rest with ⟨s2, res⟩
      rw [h2] at h
      cases res with
      | error e => simp at h
      | ok p =>
        obtain ⟨ss0, fs0⟩ := p
        obtain ⟨hl, hsub1, hsub2⟩ := ih s1 s2 ss0 fs0 h2
        cases r with
        | ok resp =>
          simp only [Except.ok.injEq, Prod.mk.injEq] at h
          obtain ⟨rfl, hss, hfs⟩ := h
          subst hss hfs
          refine ⟨by simp [← hl]; omega, ?_, ?_⟩
          · simpa [hemD] using List.Sublist.cons₂ em hsub1
          · simpa using List.Sublist.cons _ hsub2
        | error e =>
          simp only [Except.ok.injEq, Prod.mk.injEq] at h
          obtain ⟨rfl, hss, hfs⟩ := h
          subst hss hfs
          refine ⟨by simp [← hl]; omega, ?_, ?_⟩
          · simpa using List.Sublist.cons _ hsub1
          · simpa [hemD] using List.Sublist.cons₂ em hsub2

/-- When the import loop returns counts, they account for every movie exactly
once and one error message is kept per failure. -/
theorem importLoop_counts {σ : Type} (op : σ → PyDict → σ × Except PyErr PyDict) :
    ∀ (movies : List PyDict) (s s' : σ) (sc fc : Nat) (errs : List String),
      importLoop op s movies = (s', .ok (sc, fc, errs)) →
      sc + fc = movies.length ∧ errs.length = fc := by
  intro movies
  induction movies with
  | nil =>
    intro s s' sc fc errs h
    simp [importLoop] at h
    obtain ⟨-, h1, h2, h3⟩ := h
    subst h1 h2 h3
    simp
  | cons m rest ih =>
    intro s s' sc fc errs h
    rcases h1 : op s m with ⟨s1, r⟩
    rw [importLoop, h1] at h
    cases ht : dictGet? m "title" with
    | none => rw [ht] at h; simp at h
    | some t =>
      rw [ht] at h
      dsimp only at h
      cases hy : dictGet? m "year" with
      | none => rw [hy] at h; simp at h
      | some y =>
        rw [hy] at h
        rcases h2 : importLoop op s1 rest with ⟨s2, res⟩
        rw [h2] at h
        cases res with
        | error e => simp at h
        | ok p =>
          obtain ⟨sc0, fc0, errs0⟩ := p
          obtain ⟨hl, he⟩ := ih s1 s2 sc0 fc0 errs0 h2
          cases r with
          | ok resp =>
            simp only [Except.ok.injEq, Prod.mk.injEq] at h
            obtain ⟨rfl, hsc, hfc, herrs⟩ := h
            subst hsc hfc herrs
            constructor
            · simp
              omega
            · simpa using he
          | error e =>
            simp only [Except.ok.injEq, Prod.mk.injEq] at h
            obtain ⟨rfl, hsc, hfc, herrs⟩ := h
            subst hsc hfc herrs
            constructor
            · simp
              omega
            · simp
              omega

/-- The create loop accounts for every user exactly once, and both the
successful ids and the failed entries keep the input order of user ids (after
the loop's defaulting of `createdAt` and `status`). -/
theorem createLoop_counts {σ : Type} (put : σ → PyDict → σ × Except PyErr Unit)
    (now : String) :
    ∀ (users : List PyDict) (s : σ),
      (createLoop put now s users).2.1.length
          + (createLoop put now s users).2.2.length = users.length
      ∧ List.Sublist (createLoop put now s users).2.1
          (users.map (fun u =>
            dictGetD (setDefault (setDefault u "createdAt" now) "status" "active")
              "UserId" "unknown"))
      ∧ List.Sublist ((createLoop put now s users).2.2.map Prod.fst)
          (users.map (fun u =>
            dictGetD (setDefault (setDefault u "createdAt" now) "status" "active")
              "UserId" "unknown")) := by
  intro users
  induction users with
  | nil => intro s; simp [createLoop]
  | cons u rest ih =>
    intro s
    rcases h1 : put s (setDefault (setDefault u "createdAt" now) "status" "active")
      with ⟨s1, r⟩
    obtain ⟨hl, hsub1, hsub2⟩ := ih s1
    rcases h2 : createLoop put now s1 rest with ⟨s2, ss0, fs0⟩
    simp only [h2] at hl hsub1 hsub2
    rw [createLoop, h1]
    dsimp only
    rw [h2]
    cases r with
    | ok _ =>
      cases huid : dictGet? (setDefault (setDefault u "createdAt" now) "status" "active")
          "UserId" with
      | some uid =>
        have hD : dictGetD (setDefault (setDefault u "createdAt" now) "status" "active")
            "UserId" "unknown" = uid := by simp [dictGetD, huid]
        simp only [huid]
        refine ⟨?_, ?_, ?_⟩
        · simp
          omega
        · simpa [hD] using List.Sublist.cons₂ uid hsub1
        · simpa using List.Sublist.cons _ hsub2
      | none =>
        simp only [huid]
        refine ⟨?_, ?_, ?_⟩
        · simp
          omega
        · simpa using List.Sublist.cons _ hsub1
        · simpa using List.Sublist.cons₂
            (dictGetD (setDefault (setDefault u "createdAt" now) "status" "active")
              "UserId" "unknown") hsub2
    | error e =>
      refine ⟨?_, ?_, ?_⟩
      · simp
        omega
      · simpa using List.Sublist.cons _ hsub1
      · simpa using List.Sublist.cons₂
          (dictGetD (setDefault (setDefault u "createdAt" now) "status" "active")
            "UserId" "unknown") hsub2

/-- C5: every batch report accounts for every input item exactly once —
whenever `bulk_register_users` returns a report, `len(successful) +
len(failed) = len(users)` with `total_processed = len(users)` and both lists
in input order; whenever `bulk_import_movies` returns counts, `success +
failed = len(movies)` with one error message per failure; and
`batch_create_users` always satisfies `len(successful) + len(failed) =
len(users)` with both lists in input order. -/
theorem batch_report_accounts_every_item :
    (∀ (σ : Type) (op : σ → PyDict → σ × Except PyErr PyDict) (s s' : σ)
        (users : List PyDict) (r : BulkRegisterReport),
      bulk_register_users op s users = (s', .ok r) →
      r.successful.length + r.failed.length = users.length
      ∧ r.total_processed = users.length
      ∧ List.Sublist (r.successful.map Prod.fst)
          (users.map (fun u => dictGetD u "email" ""))
      ∧ List.Sublist (r.failed.map Prod.fst)
          (users.map (fun u => dictGetD u "email" "")))
    ∧ (∀ (σ : Type) (op : σ → PyDict → σ × Except PyErr PyDict) (s s' : σ)
        (movies : List PyDict) (r : BulkImportReport),
        bulk_import_movies op s movies = (s', .ok r) →
        r.success + r.failed = movies.length ∧ r.errors.length = r.failed)
    ∧ (∀ (σ : Type) (put : σ → PyDict → σ × Except PyErr Unit) (now : String)
        (s : σ) (users : List PyDict),
        (batch_create_users put now s users).2.successful.length
          + (batch_create_users put now s users).2.failed.length = users.length
        ∧ List.Sublist (batch_create_users put now s users).2.successful
            (users.map (fun u =>
              dictGetD (setDefault (setDefault u "createdAt" now) "status" "active")
                "UserId" "unknown"))
        ∧ List.Sublist
            ((batch_create_users put now s users).2.failed.map Prod.fst)
            (users.map (fun u =>
              dictGetD (setDefault (setDefault u "createdAt" now) "status" "active")
                "UserId" "unknown"))) := by
  refine ⟨?_, ?_, ?_⟩
  · intro σ op s s' users r h
    rcases h1 : registerLoop op s users with ⟨s1, res⟩
    rw [bulk_register_users, h1] at h
    cases res with
    | error e => simp at h
    | ok p =>
      obtain ⟨ss, fs⟩ := p
      obtain ⟨hl, hsub1, hsub2⟩ := registerLoop_counts op users s s1 ss fs h1
      simp only [Except.ok.injEq, Prod.mk.injEq] at h
      obtain ⟨rfl, hr⟩ := h
      subst hr
      exact ⟨hl, rfl, hsub1, hsub2⟩
  · intro σ op s s' movies r h
    rcases h1 : importLoop op s movies with ⟨s1, res⟩
    rw [bulk_import_movies, h1] at h
    cases res with
    | error e => simp at h
    | ok p =>
      obtain ⟨sc, fc, errs⟩ := p
      obtain ⟨hl, he⟩ := importLoop_counts op movies s s1 sc fc errs h1
      simp only [Except.ok.injEq, Prod.mk.injEq] at h
      obtain ⟨rfl, hr⟩ := h
      subst hr
      exact ⟨hl, he⟩
  · intro σ put now s users
    obtain ⟨hl, hsub1, hsub2⟩ := createLoop_counts put now users s
    rcases h2 : createLoop put now s users with ⟨s2, ss0, fs0⟩
    simp only [h2] at hl hsub1 hsub2
    rw [batch_create_users, h2]
    exact ⟨hl, hsub1, hsub2⟩

/-- Closed instance of `batch_report_accounts_every_item` on concrete two-item
batches for all three batch functions. -/
theorem batch_report_accounts_witness :
    ((2 : Nat) + 0 = 2 ∧ (2 : Nat) = 2
      ∧ List.Sublist ["a@y", "b@y"] ["a@y", "b@y"]
      ∧ List.Sublist ([] : List String) ["a@y", "b@y"])
    ∧ ((1 : Nat) + 1 = 2 ∧ (1 : Nat) = 1)
    ∧ ((batch_create_users
          (fun (t : Unit) u => (t,
            if dictGetD u "UserId" "unknown" == "u2" then .error (.exc "db")
            else .ok ()))
          "T" () [[("UserId", "u1")], [("UserId", "u2")]]).2.successful.length
        + (batch_create_users
          (fun (t : Unit) u => (t,
            if dictGetD u "UserId" "unknown" == "u2" then .error (.exc "db")
            else .ok ()))
          "T" () [[("UserId", "u1")], [("UserId", "u2")]]).2.failed.length = 2) := by
  have h1 := batch_report_accounts_every_item.1 Unit
    (fun (t : Unit) _ => (t, .ok [("registration_id", "X")])) () ()
    [[("email", "a@y")], [("email", "b@y")]]
    { successful := [("a@y", some "X"), ("b@y", some "X")], failed := [],
      total_processed := 2,
      success_rate := ((2 : ℕ) : ℚ) / ((2 : ℕ) : ℚ) } rfl
  have h2 := batch_report_accounts_every_item.2.1 Unit
    (fun (t : Unit) m => (t, if dictGet? m "title" == some "Heat"
        then .error (.exc "dup") else .ok [])) () ()
    [[("title", "Alien"), ("year", "1979")], [("title", "Heat"), ("year", "1995")]]
    { success := 1, failed := 1,
      errors := ["Failed to import Heat (1995): dup"] } rfl
  have h3 := batch_report_accounts_every_item.2.2 Unit
    (fun (t : Unit) u => (t,
      if dictGetD u "UserId" "unknown" == "u2" then .error (.exc "db")
      else .ok ()))
    "T" () [[("UserId", "u1")], [("UserId", "u2")]]
  exact ⟨h1, h2, h3.1⟩

/-- C6: the success rate of `bulk_register_users` is
`len(successful)/len(users)` for a non-empty input and `0` for the empty
input, whose report is empty with zero successes and failures — the
`if users else 0` guard means no division by zero is ever evaluated. -/
theorem success_rate_division_safe :
    ∀ (σ : Type) (op : σ → PyDict → σ × Except PyErr PyDict) (s : σ),
      bulk_register_users op s []
        = (s, .ok { successful := [], failed := [], total_processed := 0,
                    success_rate := 0 })
      ∧ (∀ (s' : σ) (users : List PyDict) (r : BulkRegisterReport),
          users ≠ [] → bulk_register_users op s users = (s', .ok r) →
          r.success_rate = (r.successful.length : ℚ) / (users.length : ℚ)) := by
  intro σ op s
  constructor
  · rfl
  · intro s' users r hne h
    rcases h1 : registerLoop op s users with ⟨s1, res⟩
    rw [bulk_register_users, h1] at h
    cases res with
    | error e => simp at h
    | ok p =>
      obtain ⟨ss, fs⟩ := p
      simp only [Except.ok.injEq, Prod.mk.injEq] at h
      obtain ⟨rfl, hr⟩ := h
      subst hr
      cases users with
      | nil => exact absurd rfl hne
      | cons u rest => simp

/-- Closed instance of `success_rate_division_safe`: the empty batch yields
the empty report with rate 0, and a one-user batch whose registration fails
reports rate `0/1`. -/
theorem success_rate_division_safe_witness :
    (bulk_register_users
        (fun (t : Unit) _ => (t, .error (.exc "boom"))) () []
      = ((), .ok { successful := [], failed := [], total_processed := 0,
                   success_rate := 0 }))
    ∧ (BulkRegisterReport.mk [] [("a@z", "boom")] 1
        (((0 : ℕ) : ℚ) / ((1 : ℕ) : ℚ))).success_rate
      = (((BulkRegisterReport.mk [] [("a@z", "boom")] 1
          (((0 : ℕ) : ℚ) / ((1 : ℕ) : ℚ))).successful.length : ℚ)
        / (([[("email", "a@z")]] : List PyDict).length : ℚ)) := by
  have h := success_rate_division_safe Unit
    (fun (t : Unit) _ => (t, .error (.exc "boom"))) ()
  exact ⟨h.1, h.2 () [[("email", "a@z")]]
    (BulkRegisterReport.mk [] [("a@z", "boom")] 1
      (((0 : ℕ) : ℚ) / ((1 : ℕ) : ℚ))) (by simp) rfl⟩

/-- Incrementing a counter dict adds exactly one to the total count. -/
theorem sumCounts_bumpCount (m : List (String × Nat)) (k : String) :
    sumCounts (bumpCount m k) = sumCounts m + 1 := by
  induction m with
  | nil => simp [bumpCount, sumCounts]
  | cons p rest ih =>
    obtain ⟨k', v⟩ := p
    by_cases h : (k' == k)
    · simp [bumpCount, h, sumCounts]
      omega
    · simp only [bumpCount, h, Bool.false_eq_true, if_false] at *
      simp [sumCounts] at *
      omega

/-- One analysis step leaves `total_requests` unchanged and bumps
`blocked_requests` and the suspicious-IP counters exactly on `BLOCK`
entries. -/
theorem analyzeEntry_fields (ta : ThreatAnalysis) (e : LogEntry) :
    (analyzeEntry ta e).total_requests = ta.total_requests
    ∧ (analyzeEntry ta e).blocked_requests
        = (if e.action == "BLOCK" then ta.blocked_requests + 1
           else ta.blocked_requests)
    ∧ (analyzeEntry ta e).suspicious_ips
        = (if e.action == "BLOCK" then bumpCount ta.suspicious_ips e.clientIp
           else ta.suspicious_ips) := by
  have hcl : ∀ (t : ThreatAnalysis),
      (attackClassify t e).total_requests = t.total_requests
      ∧ (attackClassify t e).blocked_requests = t.blocked_requests
      ∧ (attackClassify t e).suspicious_ips = t.suspicious_ips := by
    intro t
    unfold attackClassify
    dsimp only
    split_ifs <;> exact ⟨rfl, rfl, rfl⟩
  obtain ⟨h1, h2, h3⟩ := hcl (blockCount ta e)
  unfold analyzeEntry
  rw [h1, h2, h3]
  unfold blockCount
  split_ifs <;> exact ⟨rfl, rfl, rfl⟩

/-- Invariant of the analysis loop: starting from any aggregate, the fold adds
the number of `BLOCK` entries to `blocked_requests` and to the total of the
suspicious-IP counters, and never touches `total_requests`. -/
theorem analyzeFold_counts :
    ∀ (es : List LogEntry) (ta : ThreatAnalysis),
      (es.foldl analyzeEntry ta).total_requests = ta.total_requests
      ∧ (es.foldl analyzeEntry ta).blocked_requests
          = ta.blocked_requests
            + (es.filter (fun e => e.action == "BLOCK")).length
      ∧ sumCounts (es.foldl analyzeEntry ta).suspicious_ips
          = sumCounts ta.suspicious_ips
            + (es.filter (fun e => e.action == "BLOCK")).length := by
  intro es
  induction es with
  | nil => intro ta; simp
  | cons e rest ih =>
    intro ta
    obtain ⟨ht, hb, hs⟩ := ih (analyzeEntry ta e)
    obtain ⟨ft, fb, fs⟩ := analyzeEntry_fields ta e
    rw [List.foldl_cons]
    by_cases hB : (e.action == "BLOCK")
    · refine ⟨by rw [ht, ft], ?_, ?_⟩
      · rw [hb, fb]
        simp [hB, List.filter_cons]
        omega
      · rw [hs, fs]
        simp [hB, List.filter_cons, sumCounts_bumpCount]
        omega
    · refine ⟨by rw [ht, ft], ?_, ?_⟩
      · rw [hb, fb]
        simp [hB, List.filter_cons]
      · rw [hs, fs]
        simp [hB, List.filter_cons]

/-- C8: `analyze_threat_patterns` is a single counting pass: it reports
`total_requests = len(log_entries)`, `blocked_requests` equal to the number of
entries whose `action` is `"BLOCK"`, and per-IP counters (bumped only on
blocked entries) whose values sum to `blocked_requests`. -/
theorem threat_analysis_counts :
    ∀ (log_entries : List LogEntry),
      (analyze_threat_patterns log_entries).total_requests = log_entries.length
      ∧ (analyze_threat_patterns log_entries).blocked_requests
          = (log_entries.filter (fun e => e.action == "BLOCK")).length
      ∧ sumCounts (analyze_threat_patterns log_entries).suspicious_ips
          = (analyze_threat_patterns log_entries).blocked_requests := by
  intro log_entries
  obtain ⟨ht, hb, hs⟩ := analyzeFold_counts log_entries
    { total_requests := log_entries.length, blocked_requests := 0,
      suspicious_ips := [], sql_injection := 0, xss_attempts := 0,
      brute_force := 0, scanning := 0, top_blocked_countries := [] }
  unfold analyze_threat_patterns
  refine ⟨ht, by simpa using hb, ?_⟩
  rw [hb, hs]
  simp [sumCounts]

/-- `range(0, n, 10)` is the multiples of 10 below `n`, one per chunk. -/
theorem pyRange3_zero_ten (n : Nat) :
    pyRange3 0 n 10 = (List.range ((n + 9) / 10)).map (fun k => k * 10) := by
  unfold pyRange3
  have h : n - 0 + 10 - 1 = n + 9 := by omega
  rw [h]
  simp

/-- The chunk list of a non-empty transaction list is its first ten elements
followed by the chunk list of the rest. -/
theorem pyChunks_cons_eq {Txn : Type} (ts : List Txn) (h : ts ≠ []) :
    pyChunks ts = ts.take 10 :: pyChunks (ts.drop 10) := by
  have hn : 0 < ts.length := List.length_pos.mpr h
  unfold pyChunks
  rw [pyRange3_zero_ten, pyRange3_zero_ten]
  have h1 : (ts.length + 9) / 10 = ((ts.drop 10).length + 9) / 10 + 1 := by
    rw [List.length_drop]
    omega
  rw [h1, List.range_succ_eq_map]
  simp only [List.map_cons, List.map_map]
  congr 1
  apply List.map_congr_left
  intro k hk
  simp only [Function.comp]
  rw [List.drop_drop, Nat.succ_mul, Nat.add_comm (k * 10) 10]

/-- Concatenating the chunks gives back the transaction list. -/
theorem pyChunks_join_aux {Txn : Type} :
    ∀ (n : Nat) (ts : List Txn), ts.length = n → (pyChunks ts).flatten = ts := by
  intro n
  induction n using Nat.strong_induction_on with
  | _ n ih =>
    intro ts hlen
    by_cases hne : ts = []
    · subst hne
      simp [pyChunks, pyRange3]
    · have hpos : 0 < ts.length := List.length_pos.mpr hne
      rw [pyChunks_cons_eq ts hne, List.flatten_cons,
        ih (ts.drop 10).length (by rw [List.length_drop]; omega) (ts.drop 10) rfl,
        List.take_append_drop]

/-- Concatenating the chunks gives back the transaction list. -/
theorem pyChunks_join {Txn : Type} (ts : List Txn) : (pyChunks ts).flatten = ts :=
  pyChunks_join_aux ts.length ts rfl

/-- Every chunk holds at most ten transactions. -/
theorem pyChunks_le_ten {Txn : Type} (ts : List Txn) :
    ∀ c ∈ pyChunks ts, c.length ≤ 10 := by
  intro c hc
  unfold pyChunks at hc
  obtain ⟨i, -, rfl⟩ := List.mem_map.mp hc
  rw [List.length_take]
  omega

/-- When every `put_events` call succeeds, the chunk loop returns one response
per index. -/
theorem publishGo_ok {Txn Resp σ : Type}
    (put : σ → List (EventEntry Txn) → σ × Except PyErr Resp) (now : Nat)
    (ts : List Txn)
    (h : ∀ s es, ∃ s' r, put s es = (s', Except.ok r)) :
    ∀ (idxs : List Nat) (s : σ), ∃ s' rs,
      publishGo put now ts idxs s = (s', .ok rs) ∧ rs.length = idxs.length := by
  intro idxs
  induction idxs with
  | nil => intro s; exact ⟨s, [], rfl, rfl⟩
  | cons i is ih =>
    intro s
    obtain ⟨s1, r, hput⟩ := h s (((ts.drop i).take 10).map (mkEntry now))
    obtain ⟨s2, rs, hgo, hlen⟩ := ih s1
    refine ⟨s2, r :: rs, ?_, by simp [hlen]⟩
    rw [publishGo, hput]
    dsimp only
    rw [hgo]

/-- Run against a recording `put_events`, the chunk loop logs exactly one call
per index, in order, with the entries of that index's chunk of ten. -/
theorem publishGo_log {Txn : Type} (now : Nat) (ts : List Txn) :
    ∀ (idxs : List Nat) (log : List (List (EventEntry Txn))),
      publishGo (fun log es => (log ++ [es], Except.ok es.length)) now ts idxs log
        = (log ++ idxs.map (fun i => ((ts.drop i).take 10).map (mkEntry now)),
           .ok (idxs.map (fun i => (((ts.drop i).take 10).map (mkEntry now)).length))) := by
  intro idxs
  induction idxs with
  | nil => intro log; simp [publishGo]
  | cons i is ih =>
    intro log
    rw [publishGo]
    dsimp only
    rw [ih]
    simp

/-- C10: on an input where every `put_events` call succeeds,
`batch_publish_transactions` partitions the transactions into consecutive
chunks of at most 10 preserving input order, invokes `put_events` exactly once
per chunk (the recording callback logs exactly the chunk entries, in order),
and returns one response per chunk, so the response list has length
`ceil(len(transactions)/10)`; the empty input returns `[]` without any
publish call (the callback state is untouched). -/
theorem publish_chunks_of_ten :
    ∀ (Txn Resp σ : Type)
      (put : σ → List (EventEntry Txn) → σ × Except PyErr Resp)
      (now : Nat) (s : σ) (ts : List Txn),
      (∀ s₁ es, ∃ s₂ r, put s₁ es = (s₂, Except.ok r)) →
      (∃ s' rs, batch_publish_transactions put now s ts = (s', .ok rs)
         ∧ rs.length = (ts.length + 9) / 10)
      ∧ (pyChunks ts).flatten = ts
      ∧ (∀ c ∈ pyChunks ts, c.length ≤ 10)
      ∧ batch_publish_transactions
          (fun (log : List (List (EventEntry Txn))) es =>
            (log ++ [es], Except.ok es.length))
          now [] ts
        = ((pyChunks ts).map (fun c => c.map (mkEntry now)),
           .ok ((pyChunks ts).map (fun c => (c.map (mkEntry now)).length)))
      ∧ batch_publish_transactions put now s [] = (s, .ok []) := by
  intro Txn Resp σ put now s ts h
  refine ⟨?_, pyChunks_join ts, pyChunks_le_ten ts, ?_, ?_⟩
  · obtain ⟨s', rs, hgo, hlen⟩ := publishGo_ok put now ts h (pyRange3 0 ts.length 10) s
    refine ⟨s', rs, hgo, ?_⟩
    rw [hlen, pyRange3_zero_ten]
    simp
  · unfold batch_publish_transactions
    rw [publishGo_log]
    unfold pyChunks
    simp [List.map_map, Function.comp]
  · unfold batch_publish_transactions pyRange3
    norm_num
    rfl

/-- Closed instance of `publish_chunks_of_ten` at an 11-transaction input:
chunking yields two chunks (ten plus one) and two responses. -/
theorem publish_chunks_of_ten_witness :
    (∃ (s' : Unit) (rs : List Nat),
      batch_publish_transactions
          (fun (s : Unit) (es : List (EventEntry Nat)) => (s, Except.ok es.length))
          0 () [1, 2, 3, 4, 5, 6, 7, 8, 9, 10, 11]
        = (s', .ok rs)
      ∧ rs.length = (([1, 2, 3, 4, 5, 6, 7, 8, 9, 10, 11] : List Nat).length + 9) / 10)
    ∧ (pyChunks [1, 2, 3, 4, 5, 6, 7, 8, 9, 10, 11]).flatten
        = [1, 2, 3, 4, 5, 6, 7, 8, 9, 10, 11]
    ∧ batch_publish_transactions
        (fun (s : Unit) (es : List (EventEntry Nat)) => (s, Except.ok es.length))
        0 () ([] : List Nat)
      = ((), .ok []) := by
  have h := publish_chunks_of_ten Nat Nat Unit
    (fun (s : Unit) (es : List (EventEntry Nat)) => (s, Except.ok es.length))
    0 () [1, 2, 3, 4, 5, 6, 7, 8, 9, 10, 11]
    (fun s₁ es => ⟨s₁, es.length, rfl⟩)
  exact ⟨h.1, h.2.1, h.2.2.2.2⟩

/-- C2 counterexample: `batch_publish_transactions` does not isolate chunk
failures — with eleven transactions and a `put_events` that fails on its first
call, the whole call returns that error instead of a result covering every
input, and the second chunk is never attempted (the call counter stops at 1). -/
theorem batch_publish_failure_raises_ce :
    batch_publish_transactions
        (fun (k : Nat) (es : List (EventEntry Nat)) =>
          (k + 1, if k == 0 then .error (.exc "publish down") else .ok es.length))
        0 0 [1, 2, 3, 4, 5, 6, 7, 8, 9, 10, 11]
      = (1, .error (.exc "publish down")) := rfl

/-- Running the chunk loop on a split index list whose first part succeeded:
if the call for the next index fails, the whole loop returns that failure in
the failing call's state, so the indices after it are never dispatched. -/
theorem publishGo_error_after {Txn Resp σ : Type}
    (put : σ → List (EventEntry Txn) → σ × Except PyErr Resp) (now : Nat)
    (ts : List Txn) :
    ∀ (done : List Nat) (s t : σ) (rs : List Resp) (i : Nat) (rest : List Nat)
      (s' : σ) (e : PyErr),
      publishGo put now ts done s = (t, .ok rs) →
      put t (((ts.drop i).take 10).map (mkEntry now)) = (s', .error e) →
      publishGo put now ts (done ++ i :: rest) s = (s', .error e) := by
  intro done
  induction done with
  | nil =>
    intro s t rs i rest s' e hdone hput
    simp [publishGo] at hdone
    obtain ⟨rfl, -⟩ := hdone
    rw [List.nil_append, publishGo, hput]
  | cons j done' ih =>
    intro s t rs i rest s' e hdone hput
    rcases h1 : put s (((ts.drop j).take 10).map (mkEntry now)) with ⟨s1, r⟩
    rw [publishGo, h1] at hdone
    cases r with
    | error e0 => simp at hdone
    | ok r0 =>
      dsimp only at hdone
      rcases h2 : publishGo put now ts done' s1 with ⟨t2, res2⟩
      rw [h2] at hdone
      cases res2 with
      | error e2 => simp at hdone
      | ok rs2 =>
        simp only [Prod.mk.injEq, Except.ok.injEq] at hdone
        obtain ⟨rfl, -⟩ := hdone
        rw [List.cons_append, publishGo, h1]
        dsimp only
        rw [ih s1 t2 rs2 i rest s' e h2 hput]

/-- C2 (amended: one failing chunk aborts the batch): whenever the loop has
successfully published any prefix of the chunks and the `put_events` call for
the next chunk fails, `batch_publish_transactions` raises that failure to its
caller — the callback state it returns is exactly the failing call's state, so
no later chunk is attempted — and only when every call succeeds does it return
one response per chunk covering every input. -/
theorem publish_chunk_failure_aborts :
    ∀ (Txn Resp σ : Type)
      (put : σ → List (EventEntry Txn) → σ × Except PyErr Resp)
      (now : Nat) (s : σ) (ts : List Txn),
      (∀ (done : List Nat) (i : Nat) (rest : List Nat) (t s' : σ)
          (rs : List Resp) (e : PyErr),
        pyRange3 0 ts.length 10 = done ++ i :: rest →
        publishGo put now ts done s = (t, .ok rs) →
        put t (((ts.drop i).take 10).map (mkEntry now)) = (s', .error e) →
        batch_publish_transactions put now s ts = (s', .error e))
      ∧ ((∀ s₁ es, ∃ s₂ r, put s₁ es = (s₂, Except.ok r)) →
          ∃ s' rs, batch_publish_transactions put now s ts = (s', .ok rs)
            ∧ rs.length = (ts.length + 9) / 10) := by
  intro Txn Resp σ put now s ts
  constructor
  · intro done i rest t s' rs e hsplit hdone hput
    unfold batch_publish_transactions
    rw [hsplit]
    exact publishGo_error_after put now ts done s t rs i rest s' e hdone hput
  · intro h
    obtain ⟨s', rs, hgo, hlen⟩ := publishGo_ok put now ts h (pyRange3 0 ts.length 10) s
    refine ⟨s', rs, hgo, ?_⟩
    rw [hlen, pyRange3_zero_ten]
    simp

/-- Closed instance of `publish_chunk_failure_aborts`: in a 20-transaction
batch whose callback succeeds on its first call and fails on its second, the
first chunk is published, the second chunk's failure aborts the call with the
call counter at 2 (no third call), and an always-succeeding callback yields
one response per chunk. -/
theorem publish_chunk_failure_aborts_witness :
    (batch_publish_transactions
        (fun (k : Nat) (es : List (EventEntry Nat)) =>
          (k + 1, if k == 0 then .ok es.length else .error (.exc "events down")))
        0 0 [1, 2, 3, 4, 5, 6, 7, 8, 9, 10, 11, 12, 13, 14, 15, 16, 17, 18, 19, 20]
      = (2, .error (.exc "events down")))
    ∧ (∃ (s' : Nat) (rs : List Nat),
        batch_publish_transactions
            (fun (k : Nat) (es : List (EventEntry Nat)) => (k + 1, .ok es.length))
            0 0 [1, 2, 3, 4, 5, 6, 7, 8, 9, 10, 11]
          = (s', .ok rs)
        ∧ rs.length = (([1, 2, 3, 4, 5, 6, 7, 8, 9, 10, 11] : List Nat).length + 9) / 10) := by
  have h1 := (publish_chunk_failure_aborts Nat Nat Nat
    (fun (k : Nat) (es : List (EventEntry Nat)) =>
      (k + 1, if k == 0 then .ok es.length else .error (.exc "events down")))
    0 0 [1, 2, 3, 4, 5, 6, 7, 8, 9, 10, 11, 12, 13, 14, 15, 16, 17, 18, 19, 20]).1
    [0] 10 [] 1 2 [10] (.exc "events down") rfl rfl rfl
  have h2 := (publish_chunk_failure_aborts Nat Nat Nat
    (fun (k : Nat) (es : List (EventEntry Nat)) => (k + 1, .ok es.length))
    0 0 [1, 2, 3, 4, 5, 6, 7, 8, 9, 10, 11]).2
    (fun s₁ es => ⟨s₁ + 1, es.length, rfl⟩)
  exact ⟨h1, h2⟩
